import Mathlib

/-!
Shallow embedding of `src/app.py` (nifty50-api): a Flask service that
fetches live and historical market data for a fixed ticker list, writes
per-ticker files, and dispatches batches over a thread pool.

Modelling conventions:
  * Python exceptions are `Except String` values carrying `str(e)`.
  * The filesystem is a `Disk`: a set of directories and a map from path
    to file content; `open(path, "w")` plus a full write is a map update
    (overwrite semantics).  The error log (`logging.error`) is a list of
    messages appended in order.
  * The external provider (yfinance) and possible OS-level I/O failures
    are an `Env`: deterministic functions from ticker (or path) to either
    a value or an exception message.  `env.symbols` is the `Symbol`
    column of the startup CSV; the registry appends the ".NS" suffix
    exactly as line 34 of `app.py` does.
  * Threads of the dispatcher are modelled by running the submitted
    tasks in submission order (they touch per-ticker state) and
    collecting the results in an arbitrary completion order, given as a
    permutation `order` of the submission indices.
-/

/-- One OHLCV price series as returned by `company.history(...)`: a header
line and one rendered line per price bar.  `to_csv` renders it the way
`DataFrame.to_csv` does: header first, then the rows. -/
structure Series where
  header : String
  rows : List String
deriving DecidableEq

def Series.to_csv (s : Series) : String :=
  s.rows.foldl (fun acc r => acc ++ "\n" ++ r) s.header

/-- A per-ticker fetch result, `{"status": ..., "message": ...}` in the
Python code. -/
structure FetchResult where
  status : String
  message : String
deriving DecidableEq

/-- The mutable filesystem part of the world: directories created with
`os.makedirs` and files written with `to_csv` / `json.dump`. -/
structure Disk where
  dirs : String → Bool
  files : String → Option String

/-- The whole mutable world: the disk plus the error log
(`nifty50_data_fetch.log`, append-only). -/
structure FS where
  disk : Disk
  log : List String

/-- The deterministic environment: the startup CSV symbols, the provider
calls a fetcher can make, and which mkdir / write operations fail.
`history1d1m` is `company.history(period="1d", interval="1m")`,
`historyMax` is `company.history(period="max")`, and `info` is the
`company.info` dictionary (its keys mapped to numeric values). -/
structure Env where
  symbols : List String
  history1d1m : String → Except String Series
  historyMax : String → Except String Series
  info : String → Except String (List (String × Int))
  mkdirFail : String → Option String
  writeFail : String → Option String

/-- Line 34 of `app.py`: the ticker registry, each CSV symbol with the
".NS" exchange suffix appended.  The keys of `nifty50_tickers.tickers`. -/
def tickersOf (env : Env) : List String :=
  env.symbols.map (fun s => s ++ ".NS")

/-- The message `str(e)` of a Python `KeyError` on key `k`: the key in
single quotes. -/
def keyErrorMsg (k : String) : String :=
  String.singleton (Char.ofNat 39) ++ k ++ String.singleton (Char.ofNat 39)

/-- Line 40 of `app.py`. -/
def live_data_dir : String := "nifty50_live_data"

/-- Line 41 of `app.py`. -/
def historical_data_dir : String := "nifty50_historical_data"

/-- `os.path.join` on a POSIX filesystem. -/
def pathJoin (a b : String) : String := a ++ "/" ++ b

/-- `os.makedirs(path, exist_ok=True)`: fails when the environment says
so, otherwise records the directory. -/
def makedirs (env : Env) (path : String) (d : Disk) : Except String Unit × Disk :=
  match env.mkdirFail path with
  | some e => (Except.error e, d)
  | none => (Except.ok (), { d with dirs := fun q => if q = path then true else d.dirs q })

/-- Opening a path for writing and writing `content` to it: fails when
the environment says so, otherwise overwrites the file at that path. -/
def writeFile (env : Env) (path content : String) (d : Disk) : Except String Unit × Disk :=
  match env.writeFail path with
  | some e => (Except.error e, d)
  | none => (Except.ok (), { d with files := fun q => if q = path then some content else d.files q })

/-- `logging.error(msg)`: append one line to the error log. -/
def logError (fs : FS) (msg : String) : FS :=
  { fs with log := fs.log ++ [msg] }

/-- A dictionary `.get(key)` returning `None` when the key is absent. -/
def dictGet (d : List (String × Int)) (k : String) : Option Int :=
  match d with
  | [] => none
  | (k2, v) :: rest => if k2 = k then some v else dictGet rest k

/-- Lines 51-59 of `app.py`: the `live_info` dictionary, exactly seven
keys extracted from `company.info` with `.get`. -/
def buildLiveInfo (info : List (String × Int)) : List (String × Option Int) :=
  [("previous_close", dictGet info ("previousClose")),
   ("open", dictGet info ("open")),
   ("bid", dictGet info ("bid")),
   ("ask", dictGet info ("ask")),
   ("day_low", dictGet info ("dayLow")),
   ("day_high", dictGet info ("dayHigh")),
   ("volume", dictGet info ("volume"))]

/-- One JSON scalar as `json.dump` renders the dictionary values. -/
def jsonVal : Option Int → String
  | none => "null"
  | some v => toString v

/-- `json.dump` of a flat string-keyed dictionary, in insertion order. -/
def jsonDump (kvs : List (String × Option Int)) : String :=
  "\x7b" ++ String.intercalate (", ")
    (kvs.map (fun kv => "\x22" ++ kv.1 ++ "\x22: " ++ jsonVal kv.2)) ++ "\x7d"

/-- The `try` block of `fetch_live_market_data` (lines 47-70): registry
lookup (a `KeyError` when the ticker is unknown), the two provider calls
in evaluation order (`history` first, then the `info` gets), then the
directory creation and the two file writes.  Returns the first exception
raised, together with the disk as mutated so far. -/
def fetch_live_try (env : Env) (ticker : String) (d : Disk) : Except String Unit × Disk :=
  if ticker ∈ tickersOf env then
    match env.history1d1m ticker with
    | Except.error e => (Except.error e, d)
    | Except.ok current_price =>
      match env.info ticker with
      | Except.error e => (Except.error e, d)
      | Except.ok info =>
        let live_info := buildLiveInfo info
        let live_data_output_dir := pathJoin live_data_dir ticker
        match makedirs env live_data_output_dir d with
        | (Except.error e, d1) => (Except.error e, d1)
        | (Except.ok _, d1) =>
          match writeFile env (pathJoin live_data_output_dir (ticker ++ "_live_data.csv"))
              current_price.to_csv d1 with
          | (Except.error e, d2) => (Except.error e, d2)
          | (Except.ok _, d2) =>
            match writeFile env (pathJoin live_data_output_dir (ticker ++ "_live_info.json"))
                (jsonDump live_info) d2 with
            | (Except.error e, d3) => (Except.error e, d3)
            | (Except.ok _, d3) => (Except.ok (), d3)
  else (Except.error (keyErrorMsg ticker), d)

/-- Lines 45-74 of `app.py`: `fetch_live_market_data`, the `try` block
wrapped by the `except` clause that logs the failure and converts it to
an error result. -/
def fetch_live_market_data (env : Env) (ticker : String) (fs : FS) : FetchResult × FS :=
  match fetch_live_try env ticker fs.disk with
  | (Except.ok _, d1) =>
    ({ status := "success",
       message := "Live market data for " ++ ticker ++ " fetched and saved." },
     { fs with disk := d1 })
  | (Except.error e, d1) =>
    ({ status := "error", message := e },
     logError { fs with disk := d1 } ("Failed to fetch live data for " ++ ticker ++ ": " ++ e))

/-- The `try` block of `fetch_historical_data` (lines 78-86): registry
lookup, the `period="max"` provider call, directory creation, one file
write. -/
def fetch_historical_try (env : Env) (ticker : String) (d : Disk) : Except String Unit × Disk :=
  if ticker ∈ tickersOf env then
    match env.historyMax ticker with
    | Except.error e => (Except.error e, d)
    | Except.ok historical_data =>
      let data_output_dir := pathJoin historical_data_dir ticker
      match makedirs env data_output_dir d with
      | (Except.error e, d1) => (Except.error e, d1)
      | (Except.ok _, d1) =>
        match writeFile env (pathJoin data_output_dir (ticker ++ "_historical_data.csv"))
            historical_data.to_csv d1 with
        | (Except.error e, d2) => (Except.error e, d2)
        | (Except.ok _, d2) => (Except.ok (), d2)
  else (Except.error (keyErrorMsg ticker), d)

/-- Lines 76-90 of `app.py`: `fetch_historical_data`. -/
def fetch_historical_data (env : Env) (ticker : String) (fs : FS) : FetchResult × FS :=
  match fetch_historical_try env ticker fs.disk with
  | (Except.ok _, d1) =>
    ({ status := "success",
       message := "Historical data for " ++ ticker ++ " fetched and saved." },
     { fs with disk := d1 })
  | (Except.error e, d1) =>
    ({ status := "error", message := e },
     logError { fs with disk := d1 } ("Failed to fetch historical data for " ++ ticker ++ ": " ++ e))

/-- A task submitted to the executor: it may return a result or raise. -/
abbrev FetchTask := Env → String → FS → Except String FetchResult × FS

/-- A fetch function that never raises (the two fetchers above), lifted
to a task. -/
def asTask (f : Env → String → FS → FetchResult × FS) : FetchTask :=
  fun env t fs => let r := f env t fs; (Except.ok r.1, r.2)

/-- Lines 97-103 of `app.py`: collecting one completed future.  An
exception escaping the task is caught, logged as an error in parallel
execution, and converted to a generic error result. -/
def collectResult (env : Env) (task : FetchTask) (t : String) (fs : FS) : FetchResult × FS :=
  match task env t fs with
  | (Except.ok r, fs1) => (r, fs1)
  | (Except.error e, fs1) =>
    ({ status := "error", message := e },
     logError fs1 ("Error in parallel execution: " ++ e))

/-- All submitted tasks run to completion, in submission order; the list
holds the per-ticker results in submission order. -/
def runTasks (env : Env) (task : FetchTask) : List String → FS → List FetchResult × FS
  | [], fs => ([], fs)
  | t :: ts, fs =>
    let r := collectResult env task t fs
    let rest := runTasks env task ts r.2
    (r.1 :: rest.1, rest.2)

/-- Lines 92-104 of `app.py`: `fetch_data_in_parallel`.  `order` is the
completion order of `as_completed`, a permutation of the submission
indices; the result list is collected in that order. -/
def fetch_data_in_parallel (env : Env) (tickers : List String) (fetch_function : FetchTask)
    (order : List Nat) (fs : FS) : List FetchResult × FS :=
  let rs := runTasks env fetch_function tickers fs
  (order.filterMap (fun i => rs.1.get? i), rs.2)

/-- A JSON HTTP response as `jsonify` builds it: Flask default status
code 200 and the serialized result list. -/
structure HttpResponse where
  statusCode : Nat
  body : List FetchResult
deriving DecidableEq

/-- Lines 106-110 of `app.py`: the `/market-data/live` endpoint.
`reqTickers` is the value of the request body dictionary at key
"tickers" (`none` when the key is absent; `request.json.get` then
defaults to the empty list). -/
def fetch_live_market_data_endpoint (env : Env) (reqTickers : Option (List String))
    (order : List Nat) (fs : FS) : HttpResponse × FS :=
  let tickers := reqTickers.getD []
  let result := fetch_data_in_parallel env tickers (asTask fetch_live_market_data) order fs
  ({ statusCode := 200, body := result.1 }, result.2)

/-- Lines 112-116 of `app.py`: the `/market-data/historical` endpoint. -/
def fetch_historical_data_endpoint (env : Env) (reqTickers : Option (List String))
    (order : List Nat) (fs : FS) : HttpResponse × FS :=
  let tickers := reqTickers.getD []
  let result := fetch_data_in_parallel env tickers (asTask fetch_historical_data) order fs
  ({ statusCode := 200, body := result.1 }, result.2)

/-! ### Helper lemmas about the primitive filesystem operations -/

theorem makedirs_ok_inv {env : Env} {path : String} {d d2 : Disk} {u : Unit}
    (h : makedirs env path d = (Except.ok u, d2)) :
    env.mkdirFail path = none ∧
      d2 = { d with dirs := fun q => if q = path then true else d.dirs q } := by
  unfold makedirs at h
  cases hw : env.mkdirFail path with
  | some e => rw [hw] at h; simp at h
  | none => rw [hw] at h; injection h with h1 h2; exact ⟨rfl, h2.symm⟩

theorem writeFile_ok_inv {env : Env} {path content : String} {d d2 : Disk} {u : Unit}
    (h : writeFile env path content d = (Except.ok u, d2)) :
    env.writeFail path = none ∧
      d2 = { d with files := fun q => if q = path then some content else d.files q } := by
  unfold writeFile at h
  cases hw : env.writeFail path with
  | some e => rw [hw] at h; simp at h
  | none => rw [hw] at h; injection h with h1 h2; exact ⟨rfl, h2.symm⟩

theorem append_ne_of_length_ne {a b c : String} (h : b.length ≠ c.length) :
    a ++ b ≠ a ++ c := by
  intro heq
  apply h
  have := congrArg String.length heq
  simpa [String.length_append] using this

theorem live_csv_ne_json (a ticker : String) :
    a ++ (ticker ++ "_live_data.csv") ≠ a ++ (ticker ++ "_live_info.json") := by
  apply append_ne_of_length_ne
  simp only [String.length_append]
  have h1 : ("_live_data.csv" : String).length = 14 := by decide
  have h2 : ("_live_info.json" : String).length = 15 := by decide
  omega

/-! ### Characterizing a successful run of each fetcher -/

/-- The disk after a successful live fetch: the per-ticker directory is
present and the two per-ticker files hold the freshly rendered CSV and
JSON contents; nothing else changes. -/
def liveDiskAfter (ticker : String) (s : Series) (i : List (String × Int)) (d : Disk) : Disk :=
  { dirs := fun q => if q = pathJoin live_data_dir ticker then true else d.dirs q,
    files := fun q =>
      if q = pathJoin (pathJoin live_data_dir ticker) (ticker ++ "_live_info.json") then
        some (jsonDump (buildLiveInfo i))
      else if q = pathJoin (pathJoin live_data_dir ticker) (ticker ++ "_live_data.csv") then
        some s.to_csv
      else d.files q }

/-- The disk after a successful historical fetch. -/
def histDiskAfter (ticker : String) (s : Series) (d : Disk) : Disk :=
  { dirs := fun q => if q = pathJoin historical_data_dir ticker then true else d.dirs q,
    files := fun q =>
      if q = pathJoin (pathJoin historical_data_dir ticker) (ticker ++ "_historical_data.csv") then
        some s.to_csv
      else d.files q }

theorem fetch_live_try_run (env : Env) (ticker : String) (d : Disk) {s : Series}
    {i : List (String × Int)}
    (hmem : ticker ∈ tickersOf env)
    (hs : env.history1d1m ticker = Except.ok s)
    (hi : env.info ticker = Except.ok i)
    (hm : env.mkdirFail (pathJoin live_data_dir ticker) = none)
    (w1 : env.writeFail (pathJoin (pathJoin live_data_dir ticker) (ticker ++ "_live_data.csv")) = none)
    (w2 : env.writeFail (pathJoin (pathJoin live_data_dir ticker) (ticker ++ "_live_info.json")) = none) :
    fetch_live_try env ticker d = (Except.ok (), liveDiskAfter ticker s i d) := by
  simp only [fetch_live_try, makedirs, writeFile, liveDiskAfter, hmem, if_true, hs, hi, hm, w1, w2]

theorem fetch_historical_try_run (env : Env) (ticker : String) (d : Disk) {s : Series}
    (hmem : ticker ∈ tickersOf env)
    (hs : env.historyMax ticker = Except.ok s)
    (hm : env.mkdirFail (pathJoin historical_data_dir ticker) = none)
    (w1 : env.writeFail (pathJoin (pathJoin historical_data_dir ticker) (ticker ++ "_historical_data.csv")) = none) :
    fetch_historical_try env ticker d = (Except.ok (), histDiskAfter ticker s d) := by
  simp only [fetch_historical_try, makedirs, writeFile, histDiskAfter, hmem, if_true, hs, hm, w1]

theorem fetch_live_try_ok_inv {env : Env} {ticker : String} {d d1 : Disk} {u : Unit}
    (h : fetch_live_try env ticker d = (Except.ok u, d1)) :
    ticker ∈ tickersOf env ∧ (∃ s, env.history1d1m ticker = Except.ok s) ∧
      (∃ i, env.info ticker = Except.ok i) ∧
      env.mkdirFail (pathJoin live_data_dir ticker) = none ∧
      env.writeFail (pathJoin (pathJoin live_data_dir ticker) (ticker ++ "_live_data.csv")) = none ∧
      env.writeFail (pathJoin (pathJoin live_data_dir ticker) (ticker ++ "_live_info.json")) = none := by
  unfold fetch_live_try at h
  split at h
  case isFalse hmem => simp at h
  case isTrue hmem =>
    split at h
    case h_1 e heq => simp at h
    case h_2 s heq =>
      split at h
      case h_1 e heq2 => simp at h
      case h_2 i heq2 =>
        dsimp only at h
        split at h
        case h_1 e d2 heq3 => simp at h
        case h_2 u2 d2 heq3 =>
          split at h
          case h_1 e d3 heq4 => simp at h
          case h_2 u3 d3 heq4 =>
            split at h
            case h_1 e d4 heq5 => simp at h
            case h_2 u4 d4 heq5 =>
              exact ⟨hmem, ⟨s, heq⟩, ⟨i, heq2⟩, (makedirs_ok_inv heq3).1,
                (writeFile_ok_inv heq4).1, (writeFile_ok_inv heq5).1⟩

theorem fetch_historical_try_ok_inv {env : Env} {ticker : String} {d d1 : Disk} {u : Unit}
    (h : fetch_historical_try env ticker d = (Except.ok u, d1)) :
    ticker ∈ tickersOf env ∧ (∃ s, env.historyMax ticker = Except.ok s) ∧
      env.mkdirFail (pathJoin historical_data_dir ticker) = none ∧
      env.writeFail (pathJoin (pathJoin historical_data_dir ticker) (ticker ++ "_historical_data.csv")) = none := by
  unfold fetch_historical_try at h
  split at h
  case isFalse hmem => simp at h
  case isTrue hmem =>
    split at h
    case h_1 e heq => simp at h
    case h_2 s heq =>
      dsimp only at h
      split at h
      case h_1 e d2 heq2 => simp at h
      case h_2 u2 d2 heq2 =>
        split at h
        case h_1 e d3 heq3 => simp at h
        case h_2 u3 d3 heq3 =>
          exact ⟨hmem, ⟨s, heq⟩, (makedirs_ok_inv heq2).1, (writeFile_ok_inv heq3).1⟩

theorem fetch_live_run (env : Env) (ticker : String) (fs : FS) {s : Series}
    {i : List (String × Int)}
    (hmem : ticker ∈ tickersOf env)
    (hs : env.history1d1m ticker = Except.ok s)
    (hi : env.info ticker = Except.ok i)
    (hm : env.mkdirFail (pathJoin live_data_dir ticker) = none)
    (w1 : env.writeFail (pathJoin (pathJoin live_data_dir ticker) (ticker ++ "_live_data.csv")) = none)
    (w2 : env.writeFail (pathJoin (pathJoin live_data_dir ticker) (ticker ++ "_live_info.json")) = none) :
    fetch_live_market_data env ticker fs =
      ({ status := "success",
         message := "Live market data for " ++ ticker ++ " fetched and saved." },
       { fs with disk := liveDiskAfter ticker s i fs.disk }) := by
  unfold fetch_live_market_data
  rw [fetch_live_try_run env ticker fs.disk hmem hs hi hm w1 w2]

theorem fetch_historical_run (env : Env) (ticker : String) (fs : FS) {s : Series}
    (hmem : ticker ∈ tickersOf env)
    (hs : env.historyMax ticker = Except.ok s)
    (hm : env.mkdirFail (pathJoin historical_data_dir ticker) = none)
    (w1 : env.writeFail (pathJoin (pathJoin historical_data_dir ticker) (ticker ++ "_historical_data.csv")) = none) :
    fetch_historical_data env ticker fs =
      ({ status := "success",
         message := "Historical data for " ++ ticker ++ " fetched and saved." },
       { fs with disk := histDiskAfter ticker s fs.disk }) := by
  unfold fetch_historical_data
  rw [fetch_historical_try_run env ticker fs.disk hmem hs hm w1]

theorem fetch_live_success_inv {env : Env} {ticker : String} {fs : FS}
    (h : (fetch_live_market_data env ticker fs).1.status = "success") :
    ticker ∈ tickersOf env ∧ (∃ s, env.history1d1m ticker = Except.ok s) ∧
      (∃ i, env.info ticker = Except.ok i) ∧
      env.mkdirFail (pathJoin live_data_dir ticker) = none ∧
      env.writeFail (pathJoin (pathJoin live_data_dir ticker) (ticker ++ "_live_data.csv")) = none ∧
      env.writeFail (pathJoin (pathJoin live_data_dir ticker) (ticker ++ "_live_info.json")) = none := by
  rcases htry : fetch_live_try env ticker fs.disk with ⟨r, d1⟩
  cases r with
  | error e => exfalso; simp [fetch_live_market_data, htry] at h
  | ok u => exact fetch_live_try_ok_inv htry

theorem fetch_historical_success_inv {env : Env} {ticker : String} {fs : FS}
    (h : (fetch_historical_data env ticker fs).1.status = "success") :
    ticker ∈ tickersOf env ∧ (∃ s, env.historyMax ticker = Except.ok s) ∧
      env.mkdirFail (pathJoin historical_data_dir ticker) = none ∧
      env.writeFail (pathJoin (pathJoin historical_data_dir ticker) (ticker ++ "_historical_data.csv")) = none := by
  rcases htry : fetch_historical_try env ticker fs.disk with ⟨r, d1⟩
  cases r with
  | error e => exfalso; simp [fetch_historical_data, htry] at h
  | ok u => exact fetch_historical_try_ok_inv htry

/-! ### The claims -/

/-- Claim C2: `fetch_live_market_data` never raises past its own boundary
(it is a total function into results): for every environment, ticker and
world it returns either a success result whose message names the ticker,
leaving the error log untouched, or an error result whose message is the
exception message, appending exactly one error-log entry that carries
that message. -/
theorem fetch_live_error_contract (env : Env) (ticker : String) (fs : FS) :
    ((fetch_live_market_data env ticker fs).1.status = "success" ∧
      (fetch_live_market_data env ticker fs).1.message =
        "Live market data for " ++ ticker ++ " fetched and saved." ∧
      (fetch_live_market_data env ticker fs).2.log = fs.log) ∨
    ((fetch_live_market_data env ticker fs).1.status = "error" ∧
      (fetch_live_market_data env ticker fs).2.log =
        fs.log ++ ["Failed to fetch live data for " ++ ticker ++ ": " ++
          (fetch_live_market_data env ticker fs).1.message]) := by
  rcases htry : fetch_live_try env ticker fs.disk with ⟨r, d1⟩
  cases r with
  | ok u => left; simp [fetch_live_market_data, htry]
  | error e => right; simp [fetch_live_market_data, htry, logError]

/-- Claim C4: `fetch_historical_data` never raises: it either returns a
success result naming the ticker, having written the `period="max"`
series returned by the provider to the per-ticker historical CSV path
(log untouched), or returns an error result carrying the exception
message and appends the corresponding error-log entry. -/
theorem fetch_historical_contract (env : Env) (ticker : String) (fs : FS) :
    ((fetch_historical_data env ticker fs).1.status = "success" ∧
      (fetch_historical_data env ticker fs).1.message =
        "Historical data for " ++ ticker ++ " fetched and saved." ∧
      (∃ s, env.historyMax ticker = Except.ok s ∧
        (fetch_historical_data env ticker fs).2.disk.files
          (pathJoin (pathJoin historical_data_dir ticker) (ticker ++ "_historical_data.csv")) =
          some s.to_csv) ∧
      (fetch_historical_data env ticker fs).2.log = fs.log) ∨
    ((fetch_historical_data env ticker fs).1.status = "error" ∧
      (fetch_historical_data env ticker fs).2.log =
        fs.log ++ ["Failed to fetch historical data for " ++ ticker ++ ": " ++
          (fetch_historical_data env ticker fs).1.message]) := by
  rcases htry : fetch_historical_try env ticker fs.disk with ⟨r, d1⟩
  cases r with
  | error e => right; simp [fetch_historical_data, htry, logError]
  | ok u =>
    left
    obtain ⟨hmem, ⟨s, hs⟩, hm, w1⟩ := fetch_historical_try_ok_inv htry
    have hrun := fetch_historical_try_run env ticker fs.disk hmem hs hm w1
    rw [htry] at hrun
    injection hrun with h1 h2
    refine ⟨by simp [fetch_historical_data, htry], by simp [fetch_historical_data, htry],
      ⟨s, hs, ?_⟩, by simp [fetch_historical_data, htry]⟩
    simp [fetch_historical_data, htry, h2, histDiskAfter]

/-- Claim C3: when a live fetch succeeds, the intraday price series has
been written to `nifty50_live_data/<T>/<T>_live_data.csv`, the quote
snapshot to `nifty50_live_data/<T>/<T>_live_info.json`, and the snapshot
dictionary holds exactly the seven quote keys. -/
theorem fetch_live_success_files (env : Env) (ticker : String) (fs : FS)
    (h : (fetch_live_market_data env ticker fs).1.status = "success") :
    ∃ s i, env.history1d1m ticker = Except.ok s ∧ env.info ticker = Except.ok i ∧
      (fetch_live_market_data env ticker fs).2.disk.files
        (pathJoin (pathJoin live_data_dir ticker) (ticker ++ "_live_data.csv")) =
        some s.to_csv ∧
      (fetch_live_market_data env ticker fs).2.disk.files
        (pathJoin (pathJoin live_data_dir ticker) (ticker ++ "_live_info.json")) =
        some (jsonDump (buildLiveInfo i)) ∧
      (buildLiveInfo i).length = 7 ∧
      (buildLiveInfo i).map Prod.fst =
        ["previous_close", "open", "bid", "ask", "day_low", "day_high", "volume"] := by
  obtain ⟨hmem, ⟨s, hs⟩, ⟨i, hi⟩, hm, w1, w2⟩ := fetch_live_success_inv h
  have hne : pathJoin (pathJoin live_data_dir ticker) (ticker ++ "_live_data.csv") ≠
      pathJoin (pathJoin live_data_dir ticker) (ticker ++ "_live_info.json") := by
    unfold pathJoin
    exact live_csv_ne_json _ _
  refine ⟨s, i, hs, hi, ?_, ?_, rfl, rfl⟩
  · rw [fetch_live_run env ticker fs hmem hs hi hm w1 w2]
    simp [liveDiskAfter, hne]
  · rw [fetch_live_run env ticker fs hmem hs hi hm w1 w2]
    simp [liveDiskAfter]

theorem liveDiskAfter_idem (ticker : String) (s : Series) (i : List (String × Int)) (d : Disk) :
    liveDiskAfter ticker s i (liveDiskAfter ticker s i d) = liveDiskAfter ticker s i d := by
  unfold liveDiskAfter
  congr 1
  · funext q
    by_cases hq : q = pathJoin live_data_dir ticker <;> simp [hq]
  · funext q
    by_cases h1 : q = pathJoin (pathJoin live_data_dir ticker) (ticker ++ "_live_info.json") <;>
      by_cases h2 : q = pathJoin (pathJoin live_data_dir ticker) (ticker ++ "_live_data.csv") <;>
      simp [h1, h2]

theorem histDiskAfter_idem (ticker : String) (s : Series) (d : Disk) :
    histDiskAfter ticker s (histDiskAfter ticker s d) = histDiskAfter ticker s d := by
  unfold histDiskAfter
  congr 1
  · funext q
    by_cases hq : q = pathJoin historical_data_dir ticker <;> simp [hq]
  · funext q
    by_cases h1 : q = pathJoin (pathJoin historical_data_dir ticker) (ticker ++ "_historical_data.csv") <;>
      simp [h1]

/-- Claim C7: a fetch invocation that succeeded, repeated immediately
with unchanged provider data, takes the same branches and overwrites the
previously written files with the same content: the second invocation
returns the same result and leaves the world exactly as the first left
it (overwrite semantics to fixed per-ticker paths; no appending, no
duplication). -/
theorem fetch_idempotent (env : Env) (ticker : String) (fs : FS)
    (hLive : (fetch_live_market_data env ticker fs).1.status = "success")
    (hHist : (fetch_historical_data env ticker fs).1.status = "success") :
    fetch_live_market_data env ticker (fetch_live_market_data env ticker fs).2 =
      fetch_live_market_data env ticker fs ∧
    fetch_historical_data env ticker (fetch_historical_data env ticker fs).2 =
      fetch_historical_data env ticker fs := by
  constructor
  · obtain ⟨hmem, ⟨s, hs⟩, ⟨i, hi⟩, hm, w1, w2⟩ := fetch_live_success_inv hLive
    rw [fetch_live_run env ticker fs hmem hs hi hm w1 w2]
    dsimp only
    rw [fetch_live_run env ticker _ hmem hs hi hm w1 w2]
    dsimp only
    rw [liveDiskAfter_idem]
  · obtain ⟨hmem, ⟨s, hs⟩, hm, w1⟩ := fetch_historical_success_inv hHist
    rw [fetch_historical_run env ticker fs hmem hs hm w1]
    dsimp only
    rw [fetch_historical_run env ticker _ hmem hs hm w1]
    dsimp only
    rw [histDiskAfter_idem]

/-- Claim C5: when the provider returns an empty series (and the ticker
is in the registry and the filesystem operations succeed), both fetchers
still perform the write and return a success-status result; the written
CSV is header-only, since no emptiness check is made before writing. -/
theorem fetch_empty_series_success (env : Env) (ticker : String) (fs : FS)
    {sL sH : Series} {i : List (String × Int)}
    (hmem : ticker ∈ tickersOf env)
    (hsl : env.history1d1m ticker = Except.ok sL) (hrl : sL.rows = [])
    (hi : env.info ticker = Except.ok i)
    (hsh : env.historyMax ticker = Except.ok sH) (hrh : sH.rows = [])
    (hm1 : env.mkdirFail (pathJoin live_data_dir ticker) = none)
    (w1 : env.writeFail (pathJoin (pathJoin live_data_dir ticker) (ticker ++ "_live_data.csv")) = none)
    (w2 : env.writeFail (pathJoin (pathJoin live_data_dir ticker) (ticker ++ "_live_info.json")) = none)
    (hm2 : env.mkdirFail (pathJoin historical_data_dir ticker) = none)
    (w3 : env.writeFail (pathJoin (pathJoin historical_data_dir ticker) (ticker ++ "_historical_data.csv")) = none) :
    (fetch_live_market_data env ticker fs).1.status = "success" ∧
    (fetch_live_market_data env ticker fs).2.disk.files
      (pathJoin (pathJoin live_data_dir ticker) (ticker ++ "_live_data.csv")) =
      some sL.header ∧
    (fetch_historical_data env ticker fs).1.status = "success" ∧
    (fetch_historical_data env ticker fs).2.disk.files
      (pathJoin (pathJoin historical_data_dir ticker) (ticker ++ "_historical_data.csv")) =
      some sH.header := by
  have hcsvL : sL.to_csv = sL.header := by
    unfold Series.to_csv; rw [hrl]; rfl
  have hcsvH : sH.to_csv = sH.header := by
    unfold Series.to_csv; rw [hrh]; rfl
  have hne : pathJoin (pathJoin live_data_dir ticker) (ticker ++ "_live_data.csv") ≠
      pathJoin (pathJoin live_data_dir ticker) (ticker ++ "_live_info.json") := by
    unfold pathJoin
    exact live_csv_ne_json _ _
  refine ⟨?_, ?_, ?_, ?_⟩
  · rw [fetch_live_run env ticker fs hmem hsl hi hm1 w1 w2]
  · rw [fetch_live_run env ticker fs hmem hsl hi hm1 w1 w2]
    simp [liveDiskAfter, hne, hcsvL]
  · rw [fetch_historical_run env ticker fs hmem hsh hm2 w3]
  · rw [fetch_historical_run env ticker fs hmem hsh hm2 w3]
    simp [histDiskAfter, hcsvH]

/-- Claim C9: a ticker outside the registry built at startup (the CSV
symbols with ".NS" appended) makes both fetchers fail with the KeyError
message of the dictionary lookup, before any directory or file is
touched: the disk is unchanged, so no ticker outside the registry can
produce a success result. -/
theorem unknown_ticker_error (env : Env) (ticker : String) (fs : FS)
    (h : ticker ∉ tickersOf env) :
    (fetch_live_market_data env ticker fs).1.status = "error" ∧
    (fetch_live_market_data env ticker fs).1.message = keyErrorMsg ticker ∧
    (fetch_live_market_data env ticker fs).2.disk = fs.disk ∧
    (fetch_historical_data env ticker fs).1.status = "error" ∧
    (fetch_historical_data env ticker fs).1.message = keyErrorMsg ticker ∧
    (fetch_historical_data env ticker fs).2.disk = fs.disk := by
  have h1 : fetch_live_try env ticker fs.disk = (Except.error (keyErrorMsg ticker), fs.disk) := by
    unfold fetch_live_try; rw [if_neg h]
  have h2 : fetch_historical_try env ticker fs.disk = (Except.error (keyErrorMsg ticker), fs.disk) := by
    unfold fetch_historical_try; rw [if_neg h]
  simp [fetch_live_market_data, fetch_historical_data, h1, h2, logError]

/-- Claim C10: each fetcher retrieves all provider data before any
filesystem write of that invocation: when the intraday-history call, the
quote-info call, or the max-history call raises, the corresponding
invocation leaves the disk (directories and files) exactly as it was. -/
theorem provider_error_no_write (env : Env) (ticker : String) (fs : FS) :
    ((∃ e, env.history1d1m ticker = Except.error e) →
      (fetch_live_market_data env ticker fs).2.disk = fs.disk) ∧
    ((∃ e, env.info ticker = Except.error e) →
      (fetch_live_market_data env ticker fs).2.disk = fs.disk) ∧
    ((∃ e, env.historyMax ticker = Except.error e) →
      (fetch_historical_data env ticker fs).2.disk = fs.disk) := by
  by_cases hmem : ticker ∈ tickersOf env
  · refine ⟨?_, ?_, ?_⟩
    · rintro ⟨e, he⟩
      have h1 : fetch_live_try env ticker fs.disk = (Except.error e, fs.disk) := by
        unfold fetch_live_try; rw [if_pos hmem, he]
      simp [fetch_live_market_data, h1, logError]
    · rintro ⟨e, he⟩
      cases hh : env.history1d1m ticker with
      | error e2 =>
        have h1 : fetch_live_try env ticker fs.disk = (Except.error e2, fs.disk) := by
          unfold fetch_live_try; rw [if_pos hmem, hh]
        simp [fetch_live_market_data, h1, logError]
      | ok s =>
        have h1 : fetch_live_try env ticker fs.disk = (Except.error e, fs.disk) := by
          unfold fetch_live_try; rw [if_pos hmem, hh, he]
        simp [fetch_live_market_data, h1, logError]
    · rintro ⟨e, he⟩
      have h1 : fetch_historical_try env ticker fs.disk = (Except.error e, fs.disk) := by
        unfold fetch_historical_try; rw [if_pos hmem, he]
      simp [fetch_historical_data, h1, logError]
  · have h1 : fetch_live_try env ticker fs.disk = (Except.error (keyErrorMsg ticker), fs.disk) := by
      unfold fetch_live_try; rw [if_neg hmem]
    have h2 : fetch_historical_try env ticker fs.disk = (Except.error (keyErrorMsg ticker), fs.disk) := by
      unfold fetch_historical_try; rw [if_neg hmem]
    exact ⟨fun _ => by simp [fetch_live_market_data, h1, logError],
      fun _ => by simp [fetch_live_market_data, h1, logError],
      fun _ => by simp [fetch_historical_data, h2, logError]⟩

/-! ### Dispatcher lemmas -/

theorem runTasks_length (env : Env) (task : FetchTask) (l : List String) (fs : FS) :
    (runTasks env task l fs).1.length = l.length := by
  induction l generalizing fs with
  | nil => rfl
  | cons t ts ih => simp [runTasks, ih]

theorem range_filterMap_get (rs : List FetchResult) :
    (List.range rs.length).filterMap (fun i => rs.get? i) = rs := by
  induction rs with
  | nil => rfl
  | cons a l ih =>
    have hcomp : (fun i => (a :: l).get? i) ∘ Nat.succ = fun i => l.get? i := by
      funext j; rfl
    rw [List.length_cons, List.range_succ_eq_map, List.filterMap_cons, List.filterMap_map, hcomp, ih]
    rfl

/-- Claim C1: `fetch_data_in_parallel` is total (never raises) and
returns exactly one result per submitted ticker: for any completion
order — a permutation of the submission indices — the collected list is
a permutation of the per-ticker results, so its length equals the length
of the input list (duplicate tickers counted once per occurrence).  A
task-level exception escaping the fetcher is caught at the collection
layer, logged, and converted into a generic error result. -/
theorem dispatch_one_result_per_ticker (env : Env) (task : FetchTask) (tks : List String)
    (order : List Nat) (fs : FS) (hord : order.Perm (List.range tks.length)) :
    (fetch_data_in_parallel env tks task order fs).1.length = tks.length ∧
    (fetch_data_in_parallel env tks task order fs).1.Perm (runTasks env task tks fs).1 ∧
    ∀ u w e, (task env u w).1 = Except.error e →
      (collectResult env task u w).1 = { status := "error", message := e } ∧
      (collectResult env task u w).2.log =
        (task env u w).2.log ++ ["Error in parallel execution: " ++ e] := by
  have hlen : (runTasks env task tks fs).1.length = tks.length := runTasks_length env task tks fs
  have hperm : (fetch_data_in_parallel env tks task order fs).1.Perm (runTasks env task tks fs).1 := by
    unfold fetch_data_in_parallel
    dsimp only
    have h2 := hord.filterMap (fun i => (runTasks env task tks fs).1.get? i)
    rw [← hlen, range_filterMap_get] at h2
    exact h2
  refine ⟨hperm.length_eq.trans hlen, hperm, ?_⟩
  intro u w e h
  rcases hT : task env u w with ⟨r, w1⟩
  cases r with
  | ok r0 => rw [hT] at h; simp at h
  | error e2 =>
    rw [hT] at h
    simp only [] at h
    cases h
    constructor
    · simp [collectResult, hT]
    · simp [collectResult, hT, logError]

/-- Claim C6: each endpoint parses the ticker list from the request body
(defaulting to the empty list when the "tickers" key is absent), invokes
the dispatcher with its fetch function, and returns the result list as a
JSON array with HTTP status 200 — unconditionally, so also when
individual tickers fail. -/
theorem endpoints_http_contract (env : Env) (req : Option (List String)) (order : List Nat)
    (fs : FS) :
    (fetch_live_market_data_endpoint env req order fs).1.statusCode = 200 ∧
    (fetch_live_market_data_endpoint env req order fs).1.body =
      (fetch_data_in_parallel env (req.getD []) (asTask fetch_live_market_data) order fs).1 ∧
    (fetch_historical_data_endpoint env req order fs).1.statusCode = 200 ∧
    (fetch_historical_data_endpoint env req order fs).1.body =
      (fetch_data_in_parallel env (req.getD []) (asTask fetch_historical_data) order fs).1 ∧
    (req = none →
      (fetch_live_market_data_endpoint env req order fs).1.body = [] ∧
      (fetch_historical_data_endpoint env req order fs).1.body = []) := by
  refine ⟨rfl, rfl, rfl, rfl, ?_⟩
  rintro rfl
  have hnil : ∀ o : List Nat, (o.filterMap fun i => ([] : List FetchResult).get? i) = [] := by
    intro o
    induction o with
    | nil => rfl
    | cons a l ih => rw [List.filterMap_cons]; exact ih
  constructor <;>
    simp [fetch_live_market_data_endpoint, fetch_historical_data_endpoint,
      fetch_data_in_parallel, runTasks, hnil]

/-! ### Concrete environments and witnesses -/

/-- A one-row intraday series for a mocked provider. -/
def sampleSeries : Series :=
  { header := "Datetime,Open,High,Low,Close,Volume",
    rows := ["2024-01-01 09:15:00,100,101,99,100,1200"] }

/-- An empty intraday series: the provider returned no data. -/
def emptyLiveSeries : Series :=
  { header := "Datetime,Open,High,Low,Close,Volume", rows := [] }

/-- An empty historical series. -/
def emptyHistSeries : Series :=
  { header := "Date,Open,High,Low,Close,Volume", rows := [] }

/-- A two-row historical series. -/
def histSeries : Series :=
  { header := "Date,Open,High,Low,Close,Volume",
    rows := ["2020-01-01,90,95,89,94,1000", "2020-01-02,94,96,93,95,1100"] }

/-- A quote dictionary holding all seven keys the live fetcher reads. -/
def sampleInfo : List (String × Int) :=
  [("previousClose", 1500), ("open", 1502), ("bid", 1501), ("ask", 1503),
   ("dayLow", 1498), ("dayHigh", 1510), ("volume", 250000)]

/-- A healthy environment: one registered symbol, data for it, no
filesystem failures. -/
def envOk : Env :=
  { symbols := ["INFY"],
    history1d1m := fun t => if t = "INFY.NS" then Except.ok sampleSeries else Except.error ("no data"),
    historyMax := fun t => if t = "INFY.NS" then Except.ok histSeries else Except.error ("no data"),
    info := fun t => if t = "INFY.NS" then Except.ok sampleInfo else Except.error ("no info"),
    mkdirFail := fun _ => none,
    writeFail := fun _ => none }

/-- Like `envOk` but the provider returns empty series. -/
def envEmpty : Env :=
  { envOk with
    history1d1m := fun t => if t = "INFY.NS" then Except.ok emptyLiveSeries else Except.error ("no data"),
    historyMax := fun t => if t = "INFY.NS" then Except.ok emptyHistSeries else Except.error ("no data") }

/-- Like `envOk` but every provider call raises. -/
def envDown : Env :=
  { envOk with
    history1d1m := fun _ => Except.error ("HTTPError: 503"),
    historyMax := fun _ => Except.error ("HTTPError: 503"),
    info := fun _ => Except.error ("HTTPError: 503") }

/-- The world at process start: no files, no directories, empty log. -/
def fsEmpty : FS :=
  { disk := { dirs := fun _ => false, files := fun _ => none }, log := [] }

/-- A task whose body raises, to exercise the dispatcher fallback. -/
def failTask : FetchTask := fun _ _ fs => (Except.error ("boom"), fs)

/-- Witness for C1: a two-ticker batch with a raising task and reversed
completion order still yields two results, and the raised exception is
converted to an error result with a log entry. -/
theorem dispatch_one_result_per_ticker_witness :
    (fetch_data_in_parallel envOk (["INFY.NS", "TCS.NS"]) failTask ([1, 0]) fsEmpty).1.length = 2 ∧
    (collectResult envOk failTask ("INFY.NS") fsEmpty).1 = { status := "error", message := "boom" } ∧
    (collectResult envOk failTask ("INFY.NS") fsEmpty).2.log =
      (failTask envOk ("INFY.NS") fsEmpty).2.log ++ ["Error in parallel execution: " ++ "boom"] := by
  have h := dispatch_one_result_per_ticker envOk failTask (["INFY.NS", "TCS.NS"]) ([1, 0])
    fsEmpty (by decide)
  exact ⟨h.1, (h.2.2 ("INFY.NS") fsEmpty ("boom") rfl).1, (h.2.2 ("INFY.NS") fsEmpty ("boom") rfl).2⟩

/-- Witness for C3 at the registered ticker of `envOk`. -/
theorem fetch_live_success_files_witness :
    ∃ s i, envOk.history1d1m ("INFY.NS") = Except.ok s ∧ envOk.info ("INFY.NS") = Except.ok i ∧
      (fetch_live_market_data envOk ("INFY.NS") fsEmpty).2.disk.files
        (pathJoin (pathJoin live_data_dir ("INFY.NS")) ("INFY.NS" ++ "_live_data.csv")) =
        some s.to_csv ∧
      (fetch_live_market_data envOk ("INFY.NS") fsEmpty).2.disk.files
        (pathJoin (pathJoin live_data_dir ("INFY.NS")) ("INFY.NS" ++ "_live_info.json")) =
        some (jsonDump (buildLiveInfo i)) ∧
      (buildLiveInfo i).length = 7 ∧
      (buildLiveInfo i).map Prod.fst =
        ["previous_close", "open", "bid", "ask", "day_low", "day_high", "volume"] :=
  fetch_live_success_files envOk ("INFY.NS") fsEmpty (by decide)

/-- Witness for C5: with empty provider series both fetchers succeed and
write header-only CSV files. -/
theorem fetch_empty_series_success_witness :
    (fetch_live_market_data envEmpty ("INFY.NS") fsEmpty).1.status = "success" ∧
    (fetch_live_market_data envEmpty ("INFY.NS") fsEmpty).2.disk.files
      (pathJoin (pathJoin live_data_dir ("INFY.NS")) ("INFY.NS" ++ "_live_data.csv")) =
      some emptyLiveSeries.header ∧
    (fetch_historical_data envEmpty ("INFY.NS") fsEmpty).1.status = "success" ∧
    (fetch_historical_data envEmpty ("INFY.NS") fsEmpty).2.disk.files
      (pathJoin (pathJoin historical_data_dir ("INFY.NS")) ("INFY.NS" ++ "_historical_data.csv")) =
      some emptyHistSeries.header :=
  @fetch_empty_series_success envEmpty ("INFY.NS") fsEmpty emptyLiveSeries emptyHistSeries
    sampleInfo (by decide) rfl rfl rfl rfl rfl rfl rfl rfl rfl rfl

/-- Witness for C7: both fetch operations, repeated at the registered
ticker of `envOk`, leave the world unchanged. -/
theorem fetch_idempotent_witness :
    fetch_live_market_data envOk ("INFY.NS") (fetch_live_market_data envOk ("INFY.NS") fsEmpty).2 =
      fetch_live_market_data envOk ("INFY.NS") fsEmpty ∧
    fetch_historical_data envOk ("INFY.NS") (fetch_historical_data envOk ("INFY.NS") fsEmpty).2 =
      fetch_historical_data envOk ("INFY.NS") fsEmpty :=
  fetch_idempotent envOk ("INFY.NS") fsEmpty (by decide) (by decide)

/-- Witness for C9 at a ticker outside the registry of `envOk`. -/
theorem unknown_ticker_error_witness :
    (fetch_live_market_data envOk ("WIPRO.NS") fsEmpty).1.status = "error" ∧
    (fetch_live_market_data envOk ("WIPRO.NS") fsEmpty).1.message = keyErrorMsg ("WIPRO.NS") ∧
    (fetch_live_market_data envOk ("WIPRO.NS") fsEmpty).2.disk = fsEmpty.disk ∧
    (fetch_historical_data envOk ("WIPRO.NS") fsEmpty).1.status = "error" ∧
    (fetch_historical_data envOk ("WIPRO.NS") fsEmpty).1.message = keyErrorMsg ("WIPRO.NS") ∧
    (fetch_historical_data envOk ("WIPRO.NS") fsEmpty).2.disk = fsEmpty.disk :=
  unknown_ticker_error envOk ("WIPRO.NS") fsEmpty (by decide)

/-- Witness for C10: with every provider call failing, neither fetcher
touches the disk. -/
theorem provider_error_no_write_witness :
    (fetch_live_market_data envDown ("INFY.NS") fsEmpty).2.disk = fsEmpty.disk ∧
    (fetch_historical_data envDown ("INFY.NS") fsEmpty).2.disk = fsEmpty.disk :=
  ⟨(provider_error_no_write envDown ("INFY.NS") fsEmpty).1 ⟨"HTTPError: 503", rfl⟩,
   (provider_error_no_write envDown ("INFY.NS") fsEmpty).2.2 ⟨"HTTPError: 503", rfl⟩⟩

/-- Witness for C6: a request without the "tickers" key gets status 200
and an empty result array from both endpoints. -/
theorem endpoints_http_contract_witness :
    (fetch_live_market_data_endpoint envOk none ([]) fsEmpty).1.statusCode = 200 ∧
    (fetch_live_market_data_endpoint envOk none ([]) fsEmpty).1.body = [] ∧
    (fetch_historical_data_endpoint envOk none ([]) fsEmpty).1.body = [] := by
  have h := endpoints_http_contract envOk none ([]) fsEmpty
  exact ⟨h.1, (h.2.2.2.2 rfl).1, (h.2.2.2.2 rfl).2⟩
